import Mathlib

/-!
Verification of the serial configuration protocol handler (`SerialConfig`)
of the ITAIKO-Web firmware.

The repository ships only the class declaration (`src/SerialConfig.h`); the
member-function bodies are not part of the sources.  Each definition below
whose body is not derivable from the header therefore carries a doc comment
starting with `Modelled from the spec:` and is a faithful functional
rendering of the specification's description of that member.  Machine
integers are modelled as `Nat`/`Int` with explicit reductions modulo `2^16`
where the header's `uint16_t` types force a truncation.
-/

namespace Doncon

/-- Number of defined setting keys: the header's key table lists keys 0..41. -/
def numKeys : Nat := 42

/-- Firmware version string used in the `Version:` record (header example
gives "Version:0.0.0"). -/
def firmwareVersion : String := "0.0.0"

/-- Modelled from the spec: the fixed telemetry emission interval (a constant
cadence; the concrete number is not fixed by the spec, the claims only
depend on it abstractly). -/
def streamInterval : Nat := 100

/-- Modelled from the spec: the Input Snapshot supplied by the caller,
exposing four current channel readings (`utils/InputState.h` is not in the
sources). -/
structure InputState where
  ka_left : Nat
  don_left : Nat
  don_right : Nat
  ka_right : Nat
deriving DecidableEq, Repr

/-- The protocol handler state.  Fields `settings`/`flash` model the
externally owned Settings Store (in-memory values and the flash copy) as a
map from flat keys; the `m_`-fields mirror the private members declared in
`SerialConfig.h`.  The `std::function` callback `m_on_settings_applied` is
modelled by the flag `m_has_callback` (callback configured, i.e. non-null)
together with the observer counter `callback_count` counting its
invocations; `rebooted` records that `RebootToBootsel` was requested. -/
structure SerialConfig where
  settings : Nat → Nat
  flash : Nat → Nat
  m_has_callback : Bool
  m_write_mode : Bool
  m_write_count : Nat
  m_streaming_mode : Bool
  m_last_stream_time : Nat
  m_don_left_sum : Nat
  m_ka_left_sum : Nat
  m_don_right_sum : Nat
  m_ka_right_sum : Nat
  m_sample_count : Nat
  callback_count : Nat
  rebooted : Bool

namespace SerialConfig

/-- Value of one decimal digit character. -/
def digitVal (c : Char) : Nat := c.toNat - 48

/-- Accumulate a list of decimal digit characters into a `Nat`. -/
def digitsToNat (cs : List Char) : Nat :=
  cs.foldl (fun acc c => acc * 10 + digitVal c) 0

/-- Modelled from the spec: integer parsing of one inbound token ("both
integer-parseable"); an optional leading minus sign followed by at least one
decimal digit, nothing else. -/
def parseIntChars : List Char → Option Int
  | [] => none
  | c :: cs =>
    if c = '-' then
      match cs with
      | [] => none
      | _ => if cs.all Char.isDigit then some (-(digitsToNat cs : Int)) else none
    else
      if (c :: cs).all Char.isDigit then some ((digitsToNat (c :: cs) : Int)) else none

/-- Integer parsing of one inbound line. -/
def parseInt (s : String) : Option Int :=
  parseIntChars s.toList

/-- Split a character list into the colon-separated groups. -/
def splitOnColon : List Char → List (List Char)
  | [] => [[]]
  | c :: rest =>
    if c = ':' then [] :: splitOnColon rest
    else
      match splitOnColon rest with
      | g :: gs => (c :: g) :: gs
      | [] => [[c]]

/-- Modelled from the spec: parsing of a write-mode line, "a line of the form
`key:value` (colon-separated, both integer-parseable)". -/
def parseKeyValue (s : String) : Option (Int × Int) :=
  match splitOnColon s.toList with
  | [k, v] =>
    match parseIntChars k, parseIntChars v with
    | some ki, some vi => some (ki, vi)
    | _, _ => none
  | _ => none

/-- Recognized command codes, from the `Command` enum in the header. -/
def isCommand (n : Int) : Bool :=
  n == 1000 || n == 1001 || n == 1002 || n == 1003 || n == 1004 ||
  n == 2000 || n == 2001

/-- Modelled from the spec: `getSettingByKey` translates a flat key into a
Settings Store lookup; the header declares it returning `uint16_t`, and an
out-of-range key returns a defined sentinel (0). -/
def getSettingByKey (settings : Nat → Nat) (key : Int) : Nat :=
  if 0 ≤ key ∧ key < (numKeys : Int) then settings key.toNat % 65536 else 0

/-- Pointwise update of the Settings Store map. -/
def storeSet (settings : Nat → Nat) (k v : Nat) : Nat → Nat :=
  fun a => if a = k then v else settings a

/-- Modelled from the spec: `setSettingByKey` stores one value at a flat key;
an out-of-range key is a no-op on write.  The header declares the value
parameter as `uint16_t`, so callers pass an already truncated value. -/
def setSettingByKey (settings : Nat → Nat) (key : Int) (value : Nat) : Nat → Nat :=
  if 0 ≤ key ∧ key < (numKeys : Int) then storeSet settings key.toNat value
  else settings

/-- Modelled from the spec: `sendAllSettings` emits one `key:value` record
per defined key in ascending key order, followed by the fixed
`Version:<firmware-version-string>` record. -/
def sendAllSettings (cfg : SerialConfig) : List String :=
  ((List.range numKeys).map fun k =>
    toString k ++ ":" ++ toString (getSettingByKey cfg.settings (k : Int)))
  ++ ["Version:" ++ firmwareVersion]

/-- Modelled from the spec: `sendSensorData` formats one CSV line of the four
(averaged) channel values, in the argument order of the header declaration
(`ka_l, don_l, don_r, ka_r`). -/
def sendSensorData (ka_l don_l don_r ka_r : Nat) : String :=
  toString ka_l ++ "," ++ toString don_l ++ "," ++ toString don_r ++ "," ++ toString ka_r

/-- Modelled from the spec: `handleCommand` dispatches one recognized command
code; results are the new handler state and the list of emitted records. -/
def handleCommand (cfg : SerialConfig) (now : Nat) (cmd : Int) :
    SerialConfig × List String :=
  if cmd = 1000 then (cfg, sendAllSettings cfg)
  else if cmd = 1001 then ({ cfg with flash := cfg.settings }, [])
  else if cmd = 1002 then ({ cfg with m_write_mode := true, m_write_count := 0 }, [])
  else if cmd = 1003 then
    ({ cfg with
        settings := cfg.flash,
        callback_count := cfg.callback_count + (if cfg.m_has_callback then 1 else 0) }, [])
  else if cmd = 1004 then ({ cfg with rebooted := true }, [])
  else if cmd = 2000 then
    ({ cfg with
        m_streaming_mode := true,
        m_don_left_sum := 0, m_ka_left_sum := 0,
        m_don_right_sum := 0, m_ka_right_sum := 0,
        m_sample_count := 0,
        m_last_stream_time := now }, [])
  else if cmd = 2001 then ({ cfg with m_streaming_mode := false }, [])
  else (cfg, [])

/-- Modelled from the spec: `handleWriteData` parses one write-mode line; on
parse failure (malformed line, out-of-range key) it is silently ignored; on
success the value is applied to the Settings Store (truncated to `uint16_t`
at the `setSettingByKey` call), `m_write_count` is incremented and the
applied-settings callback is invoked if configured. -/
def handleWriteData (cfg : SerialConfig) (data : String) :
    SerialConfig × List String :=
  match parseKeyValue data with
  | some kv =>
    if 0 ≤ kv.1 ∧ kv.1 < (numKeys : Int) then
      ({ cfg with
          settings := setSettingByKey cfg.settings kv.1 ((kv.2 % 65536).toNat),
          m_write_count := cfg.m_write_count + 1,
          callback_count := cfg.callback_count + (if cfg.m_has_callback then 1 else 0) }, [])
    else (cfg, [])
  | none => (cfg, [])

/-- Modelled from the spec: `processSerial` interprets one inbound line.  A
line exactly matching a recognized command code is processed as a command
(even while in write mode); otherwise, in write mode the line is write data,
and outside write mode unrecognized input is silently dropped. -/
def processSerial (cfg : SerialConfig) (now : Nat) (line : String) :
    SerialConfig × List String :=
  match parseInt line with
  | some n =>
    if isCommand n then handleCommand cfg now n
    else if cfg.m_write_mode then handleWriteData cfg line
    else (cfg, [])
  | none =>
    if cfg.m_write_mode then handleWriteData cfg line
    else (cfg, [])

/-- Average guarded against a zero sample count, per the spec's
division-by-zero guard ("emit zeros ... in that case"). -/
def avgOrZero (sum count : Nat) : Nat :=
  if count = 0 then 0 else sum / count

/-- Modelled from the spec: `sendSensorDataIfStreaming`.  No-op unless
streaming; otherwise accumulate the snapshot into the running sums and the
sample count, and, once the emission interval has elapsed since the last
emission, emit one CSV line of the per-channel averages and reset all sums,
the sample count and the last-emit timestamp together. -/
def sendSensorDataIfStreaming (cfg : SerialConfig) (now : Nat) (input : InputState) :
    SerialConfig × List String :=
  if cfg.m_streaming_mode then
    let acc := { cfg with
      m_don_left_sum := cfg.m_don_left_sum + input.don_left,
      m_ka_left_sum := cfg.m_ka_left_sum + input.ka_left,
      m_don_right_sum := cfg.m_don_right_sum + input.don_right,
      m_ka_right_sum := cfg.m_ka_right_sum + input.ka_right,
      m_sample_count := cfg.m_sample_count + 1 }
    if streamInterval ≤ now - cfg.m_last_stream_time then
      ({ acc with
          m_don_left_sum := 0, m_ka_left_sum := 0,
          m_don_right_sum := 0, m_ka_right_sum := 0,
          m_sample_count := 0,
          m_last_stream_time := now },
        [sendSensorData
          (avgOrZero acc.m_ka_left_sum acc.m_sample_count)
          (avgOrZero acc.m_don_left_sum acc.m_sample_count)
          (avgOrZero acc.m_don_right_sum acc.m_sample_count)
          (avgOrZero acc.m_ka_right_sum acc.m_sample_count)])
    else (acc, [])
  else (cfg, [])

/-- Feed a sequence of timestamped input snapshots to
`sendSensorDataIfStreaming`, collecting all emitted lines in order. -/
def feedAll (cfg : SerialConfig) : List (Nat × InputState) → SerialConfig × List String
  | [] => (cfg, [])
  | f :: rest =>
    let r := sendSensorDataIfStreaming cfg f.1 f.2
    let r2 := feedAll r.1 rest
    (r2.1, r.2 ++ r2.2)

/-- True when the line parses to a recognized command code (the test
`processSerial` makes before treating a write-mode line as data). -/
def lineIsCommand (line : String) : Bool :=
  match parseInt line with
  | some n => isCommand n
  | none => false

/-- True when the line is a well-formed write-data line with an in-range
key, i.e. when `handleWriteData` would apply a value. -/
def writeApplies (line : String) : Bool :=
  match parseKeyValue line with
  | some kv => decide (0 ≤ kv.1 ∧ kv.1 < (numKeys : Int))
  | none => false

/-- Sum of one channel of a list of input snapshots. -/
def channelSum (f : InputState → Nat) (l : List InputState) : Nat :=
  (l.map f).sum

/-- A fixed concrete handler state used by the witness theorems. -/
def cfg0 : SerialConfig where
  settings := fun _ => 0
  flash := fun _ => 0
  m_has_callback := true
  m_write_mode := false
  m_write_count := 0
  m_streaming_mode := false
  m_last_stream_time := 0
  m_don_left_sum := 0
  m_ka_left_sum := 0
  m_don_right_sum := 0
  m_ka_right_sum := 0
  m_sample_count := 0
  callback_count := 0
  rebooted := false

/-- A concrete handler state that is in write mode, used by witnesses. -/
def cfg1 : SerialConfig :=
  { cfg0 with m_write_mode := true }

/-- A concrete handler state that is streaming, used by witnesses. -/
def cfg2 : SerialConfig :=
  { cfg0 with m_streaming_mode := true }

/-- An inbound line that parses to a recognized command code is dispatched
to `handleCommand`, in or out of write mode. -/
theorem processSerial_command (cfg : SerialConfig) (now : Nat) (line : String)
    (n : Int) (hpi : parseInt line = some n) (hcmd : isCommand n = true) :
    processSerial cfg now line = handleCommand cfg now n := by
  unfold processSerial
  simp only [hpi, hcmd, if_true]

/-- In write mode, a line that does not parse to a recognized command code
is handled as write data. -/
theorem processSerial_write_data (cfg : SerialConfig) (now : Nat) (line : String)
    (hw : cfg.m_write_mode = true) (hc : lineIsCommand line = false) :
    processSerial cfg now line = handleWriteData cfg line := by
  unfold processSerial
  cases hpi : parseInt line with
  | none => simp only [hw, if_true]
  | some n =>
    have hcmd : isCommand n = false := by
      simpa only [lineIsCommand, hpi] using hc
    simp only [hcmd, hw, Bool.false_eq_true, if_false, if_true]

/-- Outside write mode, a line that does not parse to a recognized command
code is dropped. -/
theorem processSerial_dropped (cfg : SerialConfig) (now : Nat) (line : String)
    (hw : cfg.m_write_mode = false) (hc : lineIsCommand line = false) :
    processSerial cfg now line = (cfg, []) := by
  unfold processSerial
  cases hpi : parseInt line with
  | none => simp only [hw, Bool.false_eq_true, if_false]
  | some n =>
    have hcmd : isCommand n = false := by
      simpa only [lineIsCommand, hpi] using hc
    simp only [hcmd, hw, Bool.false_eq_true, if_false]

/-- A write-data line that would not apply (malformed or out-of-range key)
leaves the handler and the Settings Store unchanged and emits nothing. -/
theorem handleWriteData_noop (cfg : SerialConfig) (line : String)
    (ha : writeApplies line = false) :
    handleWriteData cfg line = (cfg, []) := by
  unfold handleWriteData
  cases hkv : parseKeyValue line with
  | none => simp only
  | some kv =>
    simp only [writeApplies, hkv, decide_eq_false_iff_not] at ha
    simp only [if_neg ha]

/-- A well-formed in-range write-data line applies the (truncated) value,
counts the write, fires the callback when configured, and emits nothing. -/
theorem handleWriteData_applies (cfg : SerialConfig) (line : String)
    (kv : Int × Int) (hkv : parseKeyValue line = some kv)
    (hr : 0 ≤ kv.1 ∧ kv.1 < (numKeys : Int)) :
    handleWriteData cfg line =
      ({ cfg with
          settings := setSettingByKey cfg.settings kv.1 ((kv.2 % 65536).toNat),
          m_write_count := cfg.m_write_count + 1,
          callback_count :=
            cfg.callback_count + (if cfg.m_has_callback then 1 else 0) }, []) := by
  unfold handleWriteData
  simp only [hkv, if_pos hr]

/-- Claim C3.  Invalid input is silently ignored: a write-mode line that is
neither a recognized command nor an applicable `key:value` pair (malformed
or out-of-range key), and, outside write mode, any line that is not a
recognized command code, leave the handler state and the Settings Store
unchanged and emit no output. -/
theorem invalid_input_silently_ignored (cfg : SerialConfig) (now : Nat) (line : String) :
    (cfg.m_write_mode = true → lineIsCommand line = false → writeApplies line = false →
      processSerial cfg now line = (cfg, [])) ∧
    (cfg.m_write_mode = false → lineIsCommand line = false →
      processSerial cfg now line = (cfg, [])) := by
  constructor
  · intro hw hc ha
    rw [processSerial_write_data cfg now line hw hc]
    exact handleWriteData_noop cfg line ha
  · intro hw hc
    exact processSerial_dropped cfg now line hw hc

/-- Claim C3 witness: an out-of-range write-mode line and an unrecognized
command code, both on concrete states, are ignored. -/
theorem invalid_input_silently_ignored_witness :
    processSerial cfg1 0 "99:5" = (cfg1, []) ∧
    processSerial cfg0 0 "999" = (cfg0, []) :=
  ⟨(invalid_input_silently_ignored cfg1 0 "99:5").1 rfl (by decide) (by decide),
   (invalid_input_silently_ignored cfg0 0 "999").2 rfl (by decide)⟩

/-- Claim C4.  With an applied-settings callback configured, every
successful single-key write in write mode invokes the callback exactly once,
and every `ReloadFromFlash` command (1003) invokes it exactly once per call,
independently of the stored values. -/
theorem callback_once_per_write_and_reload (cfg : SerialConfig) (now : Nat) (line : String) :
    (cfg.m_has_callback = true → cfg.m_write_mode = true →
      lineIsCommand line = false → writeApplies line = true →
      (processSerial cfg now line).1.callback_count = cfg.callback_count + 1) ∧
    (cfg.m_has_callback = true →
      (processSerial cfg now "1003").1.callback_count = cfg.callback_count + 1) := by
  constructor
  · intro hcb hw hc ha
    rw [processSerial_write_data cfg now line hw hc]
    cases hkv : parseKeyValue line with
    | none => simp only [writeApplies, hkv, Bool.false_eq_true] at ha
    | some kv =>
      have hr : 0 ≤ kv.1 ∧ kv.1 < (numKeys : Int) := by
        simpa only [writeApplies, hkv, decide_eq_true_eq] using ha
      rw [handleWriteData_applies cfg line kv hkv hr]
      simp only [hcb, if_true]
  · intro hcb
    have h : processSerial cfg now "1003" = handleCommand cfg now 1003 :=
      processSerial_command cfg now "1003" 1003 rfl rfl
    rw [h]
    unfold handleCommand
    norm_num
    simp only [hcb, if_true]

/-- Claim C4 witness: on a concrete write-mode state with a configured
callback, one successful write and one reload each bump the callback
counter by one. -/
theorem callback_once_per_write_and_reload_witness :
    (processSerial cfg1 0 "0:800").1.callback_count = cfg1.callback_count + 1 ∧
    (processSerial cfg1 0 "1003").1.callback_count = cfg1.callback_count + 1 :=
  ⟨(callback_once_per_write_and_reload cfg1 0 "0:800").1 rfl rfl (by decide) (by decide),
   (callback_once_per_write_and_reload cfg1 0 "0:800").2 rfl⟩

/-- Claim C9.  While in write mode, an inbound line that exactly matches a
recognized command code is processed as that command, and write mode remains
active afterwards. -/
theorem command_in_write_mode_keeps_write_mode (cfg : SerialConfig) (now : Nat)
    (line : String) (n : Int) (hw : cfg.m_write_mode = true)
    (hpi : parseInt line = some n) (hcmd : isCommand n = true) :
    processSerial cfg now line = handleCommand cfg now n ∧
    (processSerial cfg now line).1.m_write_mode = true := by
  have h := processSerial_command cfg now line n hpi hcmd
  refine ⟨h, ?_⟩
  rw [h]
  have hn : n = 1000 ∨ n = 1001 ∨ n = 1002 ∨ n = 1003 ∨ n = 1004 ∨
      n = 2000 ∨ n = 2001 := by
    simpa only [isCommand, Bool.or_eq_true, beq_iff_eq, or_assoc] using hcmd
  rcases hn with rfl | rfl | rfl | rfl | rfl | rfl | rfl <;>
    simp [handleCommand, hw]

/-- Claim C9 witness: receiving `ReadAll` while in write mode on a concrete
state is processed as the command and leaves write mode on. -/
theorem command_in_write_mode_keeps_write_mode_witness :
    processSerial cfg1 0 "1000" = handleCommand cfg1 0 1000 ∧
    (processSerial cfg1 0 "1000").1.m_write_mode = true :=
  command_in_write_mode_keeps_write_mode cfg1 0 "1000" 1000 rfl rfl rfl

/-- Claim C1.  For every state of the Settings Store, processing the
`ReadAll` command (inbound token 1000) leaves the handler unchanged and
emits exactly one `key:value` record for each defined key 0..41, in
ascending key order, where each emitted value is the value currently held by
the Settings Store for that key, followed by a single
`Version:<firmware-version-string>` record. -/
theorem readAll_emits_every_key_then_version (cfg : SerialConfig) (now : Nat) :
    (processSerial cfg now "1000").1 = cfg ∧
    (processSerial cfg now "1000").2 =
      ((List.range numKeys).map fun k =>
        toString k ++ ":" ++ toString (getSettingByKey cfg.settings (k : Int)))
      ++ ["Version:" ++ firmwareVersion] :=
  ⟨rfl, rfl⟩

/-- Claim C2.  Entering write mode (1002), sending the write-data line
`"0:800"`, then reading all settings (1000) yields a read-all response whose
record for key 0 (the first record) is `"0:800"`. -/
theorem write_then_readAll_roundtrip (cfg : SerialConfig) (t1 t2 t3 : Nat) :
    ((processSerial
        ((processSerial ((processSerial cfg t1 "1002").1) t2 "0:800").1)
        t3 "1000").2).head? = some "0:800" := by
  have h2 : ∀ (c : SerialConfig) (t : Nat),
      ((processSerial c t "1000").2).head? =
        some ("0:" ++ toString (getSettingByKey c.settings 0)) := fun c t => rfl
  rw [h2]
  have h3 : getSettingByKey
      ((processSerial ((processSerial cfg t1 "1002").1) t2 "0:800").1).settings 0 = 800 := rfl
  rw [h3]
  rfl

/-- Claim C5.  Processing the `StartStreaming` command (2000) from any state
sets `m_streaming_mode`, zeroes the four channel sums and the sample count,
and resets the last-emit timestamp to the current time. -/
theorem startStreaming_resets_accumulators (cfg : SerialConfig) (now : Nat) :
    ((processSerial cfg now "2000").1.m_streaming_mode = true) ∧
    (processSerial cfg now "2000").1.m_don_left_sum = 0 ∧
    (processSerial cfg now "2000").1.m_ka_left_sum = 0 ∧
    (processSerial cfg now "2000").1.m_don_right_sum = 0 ∧
    (processSerial cfg now "2000").1.m_ka_right_sum = 0 ∧
    (processSerial cfg now "2000").1.m_sample_count = 0 ∧
    (processSerial cfg now "2000").1.m_last_stream_time = now :=
  ⟨rfl, rfl, rfl, rfl, rfl, rfl, rfl⟩

/-- When streaming is off, a telemetry tick changes nothing and emits
nothing. -/
theorem sendSensor_not_streaming (cfg : SerialConfig) (now : Nat) (input : InputState)
    (hs : cfg.m_streaming_mode = false) :
    sendSensorDataIfStreaming cfg now input = (cfg, []) := by
  unfold sendSensorDataIfStreaming
  simp only [hs, Bool.false_eq_true, if_false]

/-- When streaming is off, any sequence of telemetry ticks changes nothing
and emits nothing. -/
theorem feedAll_not_streaming (cfg : SerialConfig)
    (hs : cfg.m_streaming_mode = false) :
    ∀ feeds : List (Nat × InputState), feedAll cfg feeds = (cfg, []) := by
  intro feeds
  induction feeds with
  | nil => rfl
  | cons p rest ih =>
    simp only [feedAll, sendSensor_not_streaming cfg p.1 p.2 hs, ih,
      List.nil_append]

/-- Claim C8.  Processing `StopStreaming` (2001) clears the streaming flag,
and from then on every telemetry tick is a no-op: no CSV line is emitted and
the handler state does not change, however many snapshots are fed. -/
theorem stopStreaming_stops_emissions (cfg : SerialConfig) (now : Nat)
    (feeds : List (Nat × InputState)) :
    ((processSerial cfg now "2001").1.m_streaming_mode = false) ∧
    feedAll ((processSerial cfg now "2001").1) feeds =
      ((processSerial cfg now "2001").1, []) :=
  ⟨rfl, feedAll_not_streaming _ rfl feeds⟩

/-- Claim C7.  The averaging step never divides by zero: the guard maps a
zero sample count to zero, and at every emission the divisor actually used
is the incremented sample count, which is positive. -/
theorem streaming_average_never_divides_by_zero (cfg : SerialConfig) (now : Nat)
    (input : InputState) (s : Nat) :
    avgOrZero s 0 = 0 ∧
    (cfg.m_streaming_mode = true →
      streamInterval ≤ now - cfg.m_last_stream_time →
      0 < cfg.m_sample_count + 1 ∧
      (sendSensorDataIfStreaming cfg now input).2 =
        [sendSensorData
          ((cfg.m_ka_left_sum + input.ka_left) / (cfg.m_sample_count + 1))
          ((cfg.m_don_left_sum + input.don_left) / (cfg.m_sample_count + 1))
          ((cfg.m_don_right_sum + input.don_right) / (cfg.m_sample_count + 1))
          ((cfg.m_ka_right_sum + input.ka_right) / (cfg.m_sample_count + 1))]) := by
  refine ⟨rfl, fun hs ht => ⟨Nat.succ_pos _, ?_⟩⟩
  unfold sendSensorDataIfStreaming
  simp only [hs, if_true, if_pos ht, avgOrZero, Nat.succ_ne_zero,
    Bool.true_eq_false, if_false]

/-- Claim C7 witness: on a concrete streaming state at an elapsed interval,
the divisor is positive and the emitted line is the quotient by it. -/
theorem streaming_average_never_divides_by_zero_witness :
    avgOrZero 7 0 = 0 ∧
    (0 < cfg2.m_sample_count + 1 ∧
      (sendSensorDataIfStreaming cfg2 100 ⟨1, 2, 3, 4⟩).2 =
        [sendSensorData
          ((cfg2.m_ka_left_sum + 1) / (cfg2.m_sample_count + 1))
          ((cfg2.m_don_left_sum + 2) / (cfg2.m_sample_count + 1))
          ((cfg2.m_don_right_sum + 3) / (cfg2.m_sample_count + 1))
          ((cfg2.m_ka_right_sum + 4) / (cfg2.m_sample_count + 1))]) :=
  ⟨(streaming_average_never_divides_by_zero cfg2 100 ⟨1, 2, 3, 4⟩ 7).1,
   (streaming_average_never_divides_by_zero cfg2 100 ⟨1, 2, 3, 4⟩ 7).2 rfl (by decide)⟩

/-- Claim C10.  Every value visible through the flat key interface is an
unsigned 16-bit quantity: `getSettingByKey` always returns at most 65535,
and a successful write-mode write stores the value reduced modulo `2^16`,
as read back for the written key. -/
theorem settings_are_uint16 (cfg : SerialConfig) (key : Int) (now : Nat)
    (line : String) (k v : Int) :
    getSettingByKey cfg.settings key ≤ 65535 ∧
    (cfg.m_write_mode = true → lineIsCommand line = false →
      parseKeyValue line = some (k, v) → 0 ≤ k → k < (numKeys : Int) →
      getSettingByKey (processSerial cfg now line).1.settings k =
        ((v % 65536).toNat)) := by
  constructor
  · unfold getSettingByKey
    split
    · have h := Nat.mod_lt (cfg.settings key.toNat) (show 0 < 65536 by norm_num)
      omega
    · omega
  · intro hw hc hkv hk0 hk1
    rw [processSerial_write_data cfg now line hw hc]
    rw [handleWriteData_applies cfg line (k, v) hkv ⟨hk0, hk1⟩]
    have hlt : (v % 65536).toNat < 65536 := by
      have h1 : 0 ≤ v % 65536 := Int.emod_nonneg v (by norm_num)
      have h2 : v % 65536 < 65536 := Int.emod_lt_of_pos v (by norm_num)
      omega
    simp [getSettingByKey, setSettingByKey, storeSet, hk0, hk1,
      Nat.mod_eq_of_lt hlt]

/-- Claim C10 witness: on a concrete state, a read is at most 65535, and
writing 70000 to key 0 stores 70000 mod 65536 = 4464. -/
theorem settings_are_uint16_witness :
    getSettingByKey cfg1.settings 5 ≤ 65535 ∧
    getSettingByKey (processSerial cfg1 0 "0:70000").1.settings 0 = 4464 :=
  ⟨(settings_are_uint16 cfg1 5 0 "0:70000" 0 70000).1,
   (settings_are_uint16 cfg1 5 0 "0:70000" 0 70000).2 rfl (by decide) (by decide)
     (by decide) (by decide)⟩

/-- Feeding a concatenation of snapshot sequences concatenates the emitted
lines of the two parts. -/
theorem feedAll_append (l1 : List (Nat × InputState)) :
    ∀ (cfg : SerialConfig) (l2 : List (Nat × InputState)),
    feedAll cfg (l1 ++ l2) =
      ((feedAll (feedAll cfg l1).1 l2).1,
        (feedAll cfg l1).2 ++ (feedAll (feedAll cfg l1).1 l2).2) := by
  induction l1 with
  | nil => intro cfg l2; simp [feedAll]
  | cons p rest ih =>
    intro cfg l2
    simp only [List.cons_append, feedAll, List.append_eq, ih, List.append_assoc]

/-- A telemetry tick while streaming, before the emission interval has
elapsed, just accumulates the snapshot and emits nothing. -/
theorem sendSensor_accumulates (cfg : SerialConfig) (now : Nat) (input : InputState)
    (hs : cfg.m_streaming_mode = true)
    (ht : now - cfg.m_last_stream_time < streamInterval) :
    sendSensorDataIfStreaming cfg now input =
      ({ cfg with
          m_don_left_sum := cfg.m_don_left_sum + input.don_left,
          m_ka_left_sum := cfg.m_ka_left_sum + input.ka_left,
          m_don_right_sum := cfg.m_don_right_sum + input.don_right,
          m_ka_right_sum := cfg.m_ka_right_sum + input.ka_right,
          m_sample_count := cfg.m_sample_count + 1 }, []) := by
  unfold sendSensorDataIfStreaming
  simp only [hs, if_true, if_neg (by omega : ¬ streamInterval ≤ now - cfg.m_last_stream_time)]

/-- A telemetry tick while streaming, once the emission interval has
elapsed, emits one CSV line of the guarded averages over the accumulated
samples (including the current snapshot) and resets the accumulators and
the timestamp. -/
theorem sendSensor_emits (cfg : SerialConfig) (now : Nat) (input : InputState)
    (hs : cfg.m_streaming_mode = true)
    (ht : streamInterval ≤ now - cfg.m_last_stream_time) :
    sendSensorDataIfStreaming cfg now input =
      ({ cfg with
          m_don_left_sum := 0, m_ka_left_sum := 0,
          m_don_right_sum := 0, m_ka_right_sum := 0,
          m_sample_count := 0, m_last_stream_time := now },
        [sendSensorData
          (avgOrZero (cfg.m_ka_left_sum + input.ka_left) (cfg.m_sample_count + 1))
          (avgOrZero (cfg.m_don_left_sum + input.don_left) (cfg.m_sample_count + 1))
          (avgOrZero (cfg.m_don_right_sum + input.don_right) (cfg.m_sample_count + 1))
          (avgOrZero (cfg.m_ka_right_sum + input.ka_right) (cfg.m_sample_count + 1))]) := by
  unfold sendSensorDataIfStreaming
  simp only [hs, if_true, if_pos ht]

/-- Feeding a sequence of snapshots that all fall inside the current
emission interval accumulates their channel sums and count and emits
nothing. -/
theorem feedAll_accumulates (pre : List (Nat × InputState)) :
    ∀ cfg : SerialConfig, cfg.m_streaming_mode = true →
    (∀ p ∈ pre, p.1 - cfg.m_last_stream_time < streamInterval) →
    feedAll cfg pre =
      ({ cfg with
          m_don_left_sum :=
            cfg.m_don_left_sum + channelSum InputState.don_left (pre.map Prod.snd),
          m_ka_left_sum :=
            cfg.m_ka_left_sum + channelSum InputState.ka_left (pre.map Prod.snd),
          m_don_right_sum :=
            cfg.m_don_right_sum + channelSum InputState.don_right (pre.map Prod.snd),
          m_ka_right_sum :=
            cfg.m_ka_right_sum + channelSum InputState.ka_right (pre.map Prod.snd),
          m_sample_count := cfg.m_sample_count + pre.length }, []) := by
  induction pre with
  | nil => intro cfg hs hpre; simp [feedAll, channelSum]
  | cons p rest ih =>
    intro cfg hs hpre
    have hstep := sendSensor_accumulates cfg p.1 p.2 hs
      (hpre p (List.mem_cons_self p rest))
    have hrest := ih
      ({ cfg with
          m_don_left_sum := cfg.m_don_left_sum + p.2.don_left,
          m_ka_left_sum := cfg.m_ka_left_sum + p.2.ka_left,
          m_don_right_sum := cfg.m_don_right_sum + p.2.don_right,
          m_ka_right_sum := cfg.m_ka_right_sum + p.2.ka_right,
          m_sample_count := cfg.m_sample_count + 1 })
      hs (fun q hq => hpre q (List.mem_cons_of_mem p hq))
    simp only [feedAll, hstep, hrest, List.nil_append, List.map_cons,
      List.length_cons, channelSum, List.sum_cons, Prod.mk.injEq,
      SerialConfig.mk.injEq, and_true, true_and]
    omega

/-- Claim C6.  After `StartStreaming`, feeding N >= 1 snapshots of which all
but the last fall inside the emission interval and the last one reaches it
produces exactly one CSV line whose four values are the (integer) arithmetic
means of the N snapshots' channels, and afterwards all four sums and the
sample count are zero together. -/
theorem streaming_emits_single_average_line (cfg : SerialConfig) (t0 tN : Nat)
    (pre : List (Nat × InputState)) (inpN : InputState)
    (hpre : ∀ p ∈ pre, p.1 - t0 < streamInterval)
    (hN : streamInterval ≤ tN - t0) :
    (feedAll ((processSerial cfg t0 "2000").1) (pre ++ [(tN, inpN)])).2 =
      [sendSensorData
        (channelSum InputState.ka_left (pre.map Prod.snd ++ [inpN]) / (pre.length + 1))
        (channelSum InputState.don_left (pre.map Prod.snd ++ [inpN]) / (pre.length + 1))
        (channelSum InputState.don_right (pre.map Prod.snd ++ [inpN]) / (pre.length + 1))
        (channelSum InputState.ka_right (pre.map Prod.snd ++ [inpN]) / (pre.length + 1))] ∧
    (feedAll ((processSerial cfg t0 "2000").1) (pre ++ [(tN, inpN)])).1.m_don_left_sum = 0 ∧
    (feedAll ((processSerial cfg t0 "2000").1) (pre ++ [(tN, inpN)])).1.m_ka_left_sum = 0 ∧
    (feedAll ((processSerial cfg t0 "2000").1) (pre ++ [(tN, inpN)])).1.m_don_right_sum = 0 ∧
    (feedAll ((processSerial cfg t0 "2000").1) (pre ++ [(tN, inpN)])).1.m_ka_right_sum = 0 ∧
    (feedAll ((processSerial cfg t0 "2000").1) (pre ++ [(tN, inpN)])).1.m_sample_count = 0 := by
  have hc : (processSerial cfg t0 "2000").1 =
      { cfg with
          m_streaming_mode := true,
          m_don_left_sum := 0, m_ka_left_sum := 0,
          m_don_right_sum := 0, m_ka_right_sum := 0,
          m_sample_count := 0,
          m_last_stream_time := t0 } := rfl
  rw [hc, feedAll_append]
  rw [feedAll_accumulates pre _ rfl (by simpa using hpre)]
  rw [show (feedAll _ [(tN, inpN)]) = _ from rfl]
  simp only [feedAll]
  rw [sendSensor_emits _ tN inpN rfl (by simpa using hN)]
  refine ⟨?_, rfl, rfl, rfl, rfl, rfl⟩
  simp [channelSum, avgOrZero]

/-- Claim C6 witness: three concrete snapshots inside one interval after
`StartStreaming` produce exactly the one line of the three per-channel
means, and the accumulators end at zero. -/
theorem streaming_emits_single_average_line_witness :
    (feedAll ((processSerial cfg0 0 "2000").1)
        ([(10, ⟨1, 2, 3, 4⟩), (50, ⟨3, 4, 5, 6⟩)] ++ [(100, ⟨5, 6, 7, 8⟩)])).2 =
      [sendSensorData 3 4 5 6] ∧
    (feedAll ((processSerial cfg0 0 "2000").1)
        ([(10, ⟨1, 2, 3, 4⟩), (50, ⟨3, 4, 5, 6⟩)] ++ [(100, ⟨5, 6, 7, 8⟩)])).1.m_don_left_sum = 0 ∧
    (feedAll ((processSerial cfg0 0 "2000").1)
        ([(10, ⟨1, 2, 3, 4⟩), (50, ⟨3, 4, 5, 6⟩)] ++ [(100, ⟨5, 6, 7, 8⟩)])).1.m_ka_left_sum = 0 ∧
    (feedAll ((processSerial cfg0 0 "2000").1)
        ([(10, ⟨1, 2, 3, 4⟩), (50, ⟨3, 4, 5, 6⟩)] ++ [(100, ⟨5, 6, 7, 8⟩)])).1.m_don_right_sum = 0 ∧
    (feedAll ((processSerial cfg0 0 "2000").1)
        ([(10, ⟨1, 2, 3, 4⟩), (50, ⟨3, 4, 5, 6⟩)] ++ [(100, ⟨5, 6, 7, 8⟩)])).1.m_ka_right_sum = 0 ∧
    (feedAll ((processSerial cfg0 0 "2000").1)
        ([(10, ⟨1, 2, 3, 4⟩), (50, ⟨3, 4, 5, 6⟩)] ++ [(100, ⟨5, 6, 7, 8⟩)])).1.m_sample_count = 0 := by
  have h := streaming_emits_single_average_line cfg0 0 100
    [(10, ⟨1, 2, 3, 4⟩), (50, ⟨3, 4, 5, 6⟩)] ⟨5, 6, 7, 8⟩ (by decide) (by decide)
  exact ⟨by rw [h.1]; norm_num [channelSum],
    h.2.1, h.2.2.1, h.2.2.2.1, h.2.2.2.2.1, h.2.2.2.2.2⟩

end SerialConfig

end Doncon
